import Mathlib

/-!
Shallow embedding of the asynchronous data pipeline of
`src/module-02/advanced-python/05-async-await/solution/exercise_5_solution.py`.

The Python program drives items through three stages (fetch, process, save)
with per-item retry and exponential backoff, fanning out over a batch with
`asyncio.gather`.  The embedding makes the two simulated effects explicit:

* randomness — each call `random.random()` inside `fetch_data` becomes one
  value of a draw stream `draws : Nat → ℚ` (the value drawn on attempt `k`);
* scheduling — the completion order of the concurrent per-item tasks becomes
  an explicit list of task indices fed to the model of `asyncio.gather`.

Simulated delays (`asyncio.sleep`) carry no data, so they are recorded as
numbers: the per-stage latency constants and the accumulated backoff wait in
the execution trace.
-/

namespace Pipeline

/-- The `DataItem` dataclass: id, optional raw/processed payloads, status
string (initially `"pending"`), optional error string. -/
structure DataItem where
  id : Int
  raw_data : Option String := none
  processed_data : Option String := none
  status : String := "pending"
  error : Option String := none
  deriving Repr, DecidableEq

/-- A fresh item as built by `process_item`: `DataItem(id=item_id)`. -/
def init_item (item_id : Int) : DataItem :=
  { id := item_id }

/-- The dict returned by `fetch_data`: `{"id": item_id, "data": ...}`. -/
structure Fetched where
  id : Int
  data : String
  deriving Repr, DecidableEq

/-- The dict returned by `process_data`: `{**data, "processed": ...}`. -/
structure Processed where
  id : Int
  data : String
  processed : String
  deriving Repr, DecidableEq

/-- Latency of `fetch_data` (`await asyncio.sleep(0.5)`), in seconds. -/
def fetch_latency : ℚ := 5 / 10

/-- Latency of `process_data` (`await asyncio.sleep(0.3)`), in seconds. -/
def process_latency : ℚ := 3 / 10

/-- Latency of `save_data` (`await asyncio.sleep(0.2)`), in seconds. -/
def save_latency : ℚ := 2 / 10

/-- Function `fetch_data(item_id, fail_rate)`: raises `Exception(f"Failed to fetch
item {item_id}")` when `random.random() < fail_rate` (the drawn value is the
explicit argument `draw`), otherwise returns
`{"id": item_id, "data": f"raw_data_{item_id}"}`.  The Python default for
`fail_rate` is `0.0`. -/
def fetch_data (item_id : Int) (fail_rate : ℚ) (draw : ℚ) : Except String Fetched :=
  if draw < fail_rate then
    Except.error ("Failed to fetch item " ++ toString item_id)
  else
    Except.ok { id := item_id, data := "raw_data_" ++ toString item_id }

/-- The Python default value of `fetch_data`'s `fail_rate` parameter. -/
def fetch_default_fail_rate : ℚ := 0

/-- Python `str.upper()` on the ASCII payload strings of this program:
character-wise uppercasing. -/
def upper (s : String) : String :=
  ⟨s.data.map Char.toUpper⟩

/-- Function `process_data(data)`: uppercases the fetched string and returns
`{**data, "processed": processed}`.  Total: never raises. -/
def process_data (data : Fetched) : Processed :=
  { id := data.id, data := data.data, processed := upper data.data }

/-- Function `save_data(data)`: returns `True`.  Total: never raises. -/
def save_data (_ : Processed) : Bool :=
  true

/-- Execution trace of one `process_item` call: loop iterations executed
(`attempts`), accumulated backoff wait in seconds (`waitTotal`), and how many
times each stage function was invoked. -/
structure Trace where
  attempts : Nat
  waitTotal : Nat
  fetches : Nat
  processes : Nat
  saves : Nat
  deriving Repr, DecidableEq

/-- The `try:` block of one loop iteration of `process_item`: fetch, record
`raw_data`, process, record `processed_data`, save, mark `"completed"`.
An error of any stage propagates out of the block (only `fetch_data` has
one). -/
def process_item_try (item_id : Int) (fail_rate : ℚ) (draw : ℚ) (item : DataItem) :
    Except String (DataItem × Trace) :=
  match fetch_data item_id fail_rate draw with
  | Except.error e => Except.error e
  | Except.ok raw =>
    let item := { item with raw_data := some raw.data }
    let processed := process_data raw
    let item := { item with processed_data := some processed.processed }
    let _ := save_data processed
    Except.ok ({ item with status := "completed" },
      { attempts := 1, waitTotal := 0, fetches := 1, processes := 1, saves := 1 })

/-- The `for attempt in range(max_retries)` loop of `process_item`, with the
exception channel kept visible: a value `Except.error e` would mean an
exception escaping to the caller.  `remaining` counts the iterations left
(`max_retries - attempt`); the loop body is `process_item_try`, and the
`except` handler either marks the item failed (last attempt,
`attempt == max_retries - 1`) or sleeps `2 ** attempt` and retries. -/
def process_itemGoE (item_id : Int) (fail_rate : ℚ) (draws : Nat → ℚ)
    (max_retries : Nat) (attempt : Nat) (item : DataItem) :
    Nat → Except String (DataItem × Trace)
  | 0 => Except.ok (item, { attempts := 0, waitTotal := 0, fetches := 0, processes := 0, saves := 0 })
  | r + 1 =>
    match process_item_try item_id fail_rate (draws attempt) item with
    | Except.ok res => Except.ok res
    | Except.error e =>
      if attempt = max_retries - 1 then
        Except.ok ({ item with status := "failed", error := some e },
          { attempts := 1, waitTotal := 0, fetches := 1, processes := 0, saves := 0 })
      else
        let wait_time := 2 ^ attempt
        match process_itemGoE item_id fail_rate draws max_retries (attempt + 1) item r with
        | Except.ok (res, t) =>
          Except.ok (res, { attempts := t.attempts + 1, waitTotal := t.waitTotal + wait_time,
                            fetches := t.fetches + 1, processes := t.processes, saves := t.saves })
        | Except.error e2 => Except.error e2

/-- Pure form of the same loop (the exception channel erased; justified by
`process_itemGoE_ok` below: the loop never lets an exception escape). -/
def process_itemGo (item_id : Int) (fail_rate : ℚ) (draws : Nat → ℚ)
    (max_retries : Nat) (attempt : Nat) (item : DataItem) :
    Nat → DataItem × Trace
  | 0 => (item, { attempts := 0, waitTotal := 0, fetches := 0, processes := 0, saves := 0 })
  | r + 1 =>
    match process_item_try item_id fail_rate (draws attempt) item with
    | Except.ok res => res
    | Except.error e =>
      if attempt = max_retries - 1 then
        ({ item with status := "failed", error := some e },
          { attempts := 1, waitTotal := 0, fetches := 1, processes := 0, saves := 0 })
      else
        let wait_time := 2 ^ attempt
        let (res, t) := process_itemGo item_id fail_rate draws max_retries (attempt + 1) item r
        (res, { attempts := t.attempts + 1, waitTotal := t.waitTotal + wait_time,
                fetches := t.fetches + 1, processes := t.processes, saves := t.saves })

/-- Loop entry `process_itemR`: `process_item` generalized over the fail rate handed to `fetch_data`
(the source hardcodes `fail_rate=0.2` at its `fetch_data` call; the spec
treats the rate as caller-supplied configuration). -/
def process_itemR (item_id : Int) (fail_rate : ℚ) (draws : Nat → ℚ)
    (max_retries : Nat) : DataItem × Trace :=
  process_itemGo item_id fail_rate draws max_retries 0 (init_item item_id) max_retries

/-- Exception-channel form of `process_itemR`. -/
def process_itemE (item_id : Int) (fail_rate : ℚ) (draws : Nat → ℚ)
    (max_retries : Nat) : Except String (DataItem × Trace) :=
  process_itemGoE item_id fail_rate draws max_retries 0 (init_item item_id) max_retries

/-- The fail rate `process_item` actually passes to `fetch_data`
(`fetch_data(item_id, fail_rate=0.2)` on line 52 of the source). -/
def process_item_fail_rate : ℚ := 2 / 10

/-- Function `process_item(item_id, max_retries=3)` exactly as in the source:
the retry loop with `fetch_data` invoked at fail rate `0.2`. -/
def process_item (item_id : Int) (draws : Nat → ℚ) (max_retries : Nat := 3) :
    DataItem × Trace :=
  process_itemR item_id process_item_fail_rate draws max_retries

/-- Model of `asyncio.gather`: each task result is written into the slot of
its input position when it completes; `order` is the completion order of the
task indices.  Slots still `none` are tasks that have not completed. -/
def gather (tasks : List DataItem) (order : List Nat) : List (Option DataItem) :=
  order.foldl (fun slots i => slots.set i tasks[i]?) (List.replicate tasks.length none)

/-- Function `run_pipeline(item_ids)`: one `process_item` task per id (each with its
own draw stream, `max_retries` left at its default 3), gathered in input
order under completion order `order`. -/
def run_pipeline (item_ids : List Int) (draws : Int → Nat → ℚ) (order : List Nat) :
    List (Option DataItem) :=
  let tasks := item_ids.map (fun item_id => (process_item item_id (draws item_id)).1)
  gather tasks order

/-- Fan-out `run_pipelineR`: `run_pipeline` generalized over the fail rate, like `process_itemR`. -/
def run_pipelineR (fail_rate : ℚ) (item_ids : List Int) (draws : Int → Nat → ℚ)
    (order : List Nat) : List (Option DataItem) :=
  let tasks := item_ids.map (fun item_id => (process_itemR item_id fail_rate (draws item_id) 3).1)
  gather tasks order

/-! Helper lemmas about one loop iteration. -/

/-- Item state after a successful pass through all three stages. -/
def completed_item (item : DataItem) (item_id : Int) : DataItem :=
  { item with
    raw_data := some ("raw_data_" ++ toString item_id)
    processed_data := some (upper ("raw_data_" ++ toString item_id))
    status := "completed" }

/-- Item state after the final failed attempt. -/
def failed_item (item : DataItem) (item_id : Int) : DataItem :=
  { item with
    status := "failed"
    error := some ("Failed to fetch item " ++ toString item_id) }

lemma process_item_try_ok (item_id : Int) (fail_rate draw : ℚ) (item : DataItem)
    (h : ¬ draw < fail_rate) :
    process_item_try item_id fail_rate draw item =
      Except.ok (completed_item item item_id,
        { attempts := 1, waitTotal := 0, fetches := 1, processes := 1, saves := 1 }) := by
  simp [process_item_try, fetch_data, process_data, completed_item, h]

lemma process_item_try_err (item_id : Int) (fail_rate draw : ℚ) (item : DataItem)
    (h : draw < fail_rate) :
    process_item_try item_id fail_rate draw item =
      Except.error ("Failed to fetch item " ++ toString item_id) := by
  simp [process_item_try, fetch_data, h]

/-- The retry loop never lets an exception escape: the exception-channel form
always returns `Except.ok` of what the pure form computes. -/
lemma process_itemGoE_ok (item_id : Int) (fail_rate : ℚ) (draws : Nat → ℚ)
    (max_retries : Nat) :
    ∀ (r attempt : Nat) (item : DataItem),
      process_itemGoE item_id fail_rate draws max_retries attempt item r =
        Except.ok (process_itemGo item_id fail_rate draws max_retries attempt item r) := by
  intro r
  induction r with
  | zero => intro attempt item; rfl
  | succ r ih =>
    intro attempt item
    simp only [process_itemGoE, process_itemGo]
    cases h : process_item_try item_id fail_rate (draws attempt) item with
    | ok res => rfl
    | error e =>
      by_cases hf : attempt = max_retries - 1
      · simp [hf]
      · simp only [hf, if_false, ih (attempt + 1) item]

/-- The loop never changes the item's `id` field. -/
lemma process_itemGo_id (item_id : Int) (fail_rate : ℚ) (draws : Nat → ℚ)
    (max_retries : Nat) :
    ∀ (r attempt : Nat) (item : DataItem),
      (process_itemGo item_id fail_rate draws max_retries attempt item r).1.id = item.id := by
  intro r
  induction r with
  | zero => intro attempt item; rfl
  | succ r ih =>
    intro attempt item
    by_cases h : draws attempt < fail_rate
    · simp only [process_itemGo,
        process_item_try_err item_id fail_rate (draws attempt) item h]
      by_cases hf : attempt = max_retries - 1
      · simp [hf]
      · simp only [if_neg hf]
        exact ih (attempt + 1) item
    · simp [process_itemGo,
        process_item_try_ok item_id fail_rate (draws attempt) item h, completed_item]

/-- A non-failing attempt completes the item immediately, running each stage
exactly once, with no backoff. -/
lemma process_itemGo_succ (item_id : Int) (fail_rate : ℚ) (draws : Nat → ℚ)
    (max_retries : Nat) (attempt r : Nat) (item : DataItem)
    (h : ¬ draws attempt < fail_rate) :
    process_itemGo item_id fail_rate draws max_retries attempt item (r + 1) =
      (completed_item item item_id,
       { attempts := 1, waitTotal := 0, fetches := 1, processes := 1, saves := 1 }) := by
  simp only [process_itemGo,
    process_item_try_ok item_id fail_rate (draws attempt) item h]

/-- When every remaining draw fails, the loop exhausts its remaining
attempts: the item ends `"failed"` with the fetch error recorded, `r` fetches
are made, and the accumulated backoff is `2 ^ (max_retries - 1) - 2 ^ attempt`
(the geometric sum of `2 ^ j` for `attempt ≤ j < max_retries - 1`). -/
lemma process_itemGo_fail (item_id : Int) (fail_rate : ℚ) (draws : Nat → ℚ)
    (max_retries : Nat) (hd : ∀ j, draws j < fail_rate) :
    ∀ (r attempt : Nat) (item : DataItem), attempt + r = max_retries → 1 ≤ r →
      process_itemGo item_id fail_rate draws max_retries attempt item r =
        (failed_item item item_id,
         { attempts := r, waitTotal := 2 ^ (max_retries - 1) - 2 ^ attempt,
           fetches := r, processes := 0, saves := 0 }) := by
  intro r
  induction r with
  | zero => intro attempt item _ h1; omega
  | succ r ih =>
    intro attempt item hsum _
    simp only [process_itemGo,
      process_item_try_err item_id fail_rate (draws attempt) item (hd attempt)]
    rcases Nat.eq_zero_or_pos r with hr | hr
    · subst hr
      have hf : attempt = max_retries - 1 := by omega
      simp [if_pos hf, hf, failed_item, Nat.sub_self]
    · have hf : attempt ≠ max_retries - 1 := by omega
      rw [if_neg hf, ih (attempt + 1) item (by omega) hr]
      have hle : attempt + 1 ≤ max_retries - 1 := by omega
      have hpow : 2 ^ (attempt + 1) ≤ 2 ^ (max_retries - 1) :=
        Nat.pow_le_pow_right (by norm_num) hle
      have h2 : 2 ^ (attempt + 1) = 2 ^ attempt * 2 := by rw [Nat.pow_succ]
      have harith : 2 ^ (max_retries - 1) - 2 ^ (attempt + 1) + 2 ^ attempt =
          2 ^ (max_retries - 1) - 2 ^ attempt := by omega
      simp [harith]

/-- With at least one attempt available (and the entry invariant
`attempt + remaining = max_retries`), the loop ends in a terminal status:
completed, or failed with the error recorded. -/
lemma process_itemGo_terminal (item_id : Int) (fail_rate : ℚ) (draws : Nat → ℚ)
    (max_retries : Nat) :
    ∀ (r attempt : Nat) (item : DataItem), attempt + r = max_retries → 1 ≤ r →
      (process_itemGo item_id fail_rate draws max_retries attempt item r).1.status = "completed" ∨
      ((process_itemGo item_id fail_rate draws max_retries attempt item r).1.status = "failed" ∧
       (process_itemGo item_id fail_rate draws max_retries attempt item r).1.error.isSome) := by
  intro r
  induction r with
  | zero => intro attempt item _ h1; omega
  | succ r ih =>
    intro attempt item hsum _
    by_cases h : draws attempt < fail_rate
    · rcases Nat.eq_zero_or_pos r with hr | hr
      · subst hr
        have hf : attempt = max_retries - 1 := by omega
        simp only [process_itemGo,
          process_item_try_err item_id fail_rate (draws attempt) item h]
        simp [if_pos hf]
      · have hf : attempt ≠ max_retries - 1 := by omega
        have hrec := ih (attempt + 1) item (by omega) hr
        simpa [process_itemGo,
          process_item_try_err item_id fail_rate (draws attempt) item h, hf] using hrec
    · simp [process_itemGo_succ item_id fail_rate draws max_retries attempt r item h,
        completed_item]

/-- Invariant behind C7: a completed result has a processed payload and no
recorded error, provided the input item had no error and was not already
completed (true of the fresh item the loop starts from). -/
lemma process_itemGo_completed_inv (item_id : Int) (fail_rate : ℚ) (draws : Nat → ℚ)
    (max_retries : Nat) :
    ∀ (r attempt : Nat) (item : DataItem), item.error = none → item.status ≠ "completed" →
      (process_itemGo item_id fail_rate draws max_retries attempt item r).1.status = "completed" →
      (process_itemGo item_id fail_rate draws max_retries attempt item r).1.processed_data.isSome ∧
      (process_itemGo item_id fail_rate draws max_retries attempt item r).1.error = none := by
  intro r
  induction r with
  | zero =>
    intro attempt item he hs hc
    simp only [process_itemGo] at hc
    exact absurd hc hs
  | succ r ih =>
    intro attempt item he hs hc
    by_cases h : draws attempt < fail_rate
    · by_cases hf : attempt = max_retries - 1
      · simp only [process_itemGo,
          process_item_try_err item_id fail_rate (draws attempt) item h, if_pos hf] at hc
        exact absurd hc (by decide)
      · simp only [process_itemGo,
          process_item_try_err item_id fail_rate (draws attempt) item h, if_neg hf] at hc ⊢
        exact ih (attempt + 1) item he hs hc
    · simp [process_itemGo_succ item_id fail_rate draws max_retries attempt r item h,
        completed_item, he]

/-- Invariant behind C10: a failed result kept both payloads empty and
recorded an error, provided the input item had empty payloads and was not
already failed (true of the fresh item the loop starts from). -/
lemma process_itemGo_failed_inv (item_id : Int) (fail_rate : ℚ) (draws : Nat → ℚ)
    (max_retries : Nat) :
    ∀ (r attempt : Nat) (item : DataItem),
      item.raw_data = none → item.processed_data = none → item.status ≠ "failed" →
      (process_itemGo item_id fail_rate draws max_retries attempt item r).1.status = "failed" →
      (process_itemGo item_id fail_rate draws max_retries attempt item r).1.raw_data = none ∧
      (process_itemGo item_id fail_rate draws max_retries attempt item r).1.processed_data = none ∧
      (process_itemGo item_id fail_rate draws max_retries attempt item r).1.error.isSome := by
  intro r
  induction r with
  | zero =>
    intro attempt item hraw hproc hs hc
    simp only [process_itemGo] at hc
    exact absurd hc hs
  | succ r ih =>
    intro attempt item hraw hproc hs hc
    by_cases h : draws attempt < fail_rate
    · by_cases hf : attempt = max_retries - 1
      · simp only [process_itemGo,
          process_item_try_err item_id fail_rate (draws attempt) item h, if_pos hf] at hc ⊢
        exact ⟨hraw, hproc, rfl⟩
      · simp only [process_itemGo,
          process_item_try_err item_id fail_rate (draws attempt) item h, if_neg hf] at hc ⊢
        exact ih (attempt + 1) item hraw hproc hs hc
    · simp only [process_itemGo_succ item_id fail_rate draws max_retries attempt r item h,
        completed_item] at hc
      exact absurd hc (by decide)

/-- The loop result carries the submitted id (from any starting item). -/
lemma process_itemR_id (item_id : Int) (fail_rate : ℚ) (draws : Nat → ℚ)
    (max_retries : Nat) :
    (process_itemR item_id fail_rate draws max_retries).1.id = item_id := by
  have := process_itemGo_id item_id fail_rate draws max_retries max_retries 0 (init_item item_id)
  simpa [process_itemR, init_item] using this

/-! Helper lemmas about the `asyncio.gather` model. -/

/-- Slot contents after processing completion events: a slot holds its task's
result exactly when its index has completed, independently of where in the
completion order it appeared. -/
lemma gather_foldl_getElem (tasks : List DataItem) :
    ∀ (order : List Nat) (slots : List (Option DataItem)) (j : Nat),
      (order.foldl (fun s i => s.set i tasks[i]?) slots)[j]? =
        if j ∈ order ∧ j < slots.length then some tasks[j]? else slots[j]? := by
  intro order
  induction order with
  | nil => intro slots j; simp
  | cons i rest ih =>
    intro slots j
    rw [List.foldl_cons, ih (slots.set i tasks[i]?) j, List.length_set]
    by_cases hjr : j ∈ rest
    · by_cases hlt : j < slots.length
      · simp [hjr, hlt]
      · have h1 : (slots.set i tasks[i]?).length ≤ j := by
          rw [List.length_set]; omega
        have h2 : slots.length ≤ j := by omega
        simp [hjr, hlt, List.getElem?_eq_none h1, List.getElem?_eq_none h2]
    · by_cases hji : j = i
      · subst hji
        by_cases hlt : j < slots.length
        · simp [hjr, hlt, List.getElem?_set_eq_of_lt tasks[j]? hlt]
        · have h1 : (slots.set j tasks[j]?).length ≤ j := by
            rw [List.length_set]; omega
          have h2 : slots.length ≤ j := by omega
          simp [hjr, hlt, List.getElem?_eq_none h1, List.getElem?_eq_none h2]
      · have hmem : j ∉ (i :: rest) := by simp [hji, hjr]
        simp [hjr, hmem, hji, List.getElem?_set_ne (Ne.symm hji)]

/-- When the completion order is a permutation of the task indices (every
task completes, each once), the collected list is the task results in input
order: first-to-finish timing cannot reorder the output. -/
lemma gather_perm (tasks : List DataItem) (order : List Nat)
    (h : order.Perm (List.range tasks.length)) :
    gather tasks order = tasks.map some := by
  apply List.ext_getElem?
  intro j
  unfold gather
  rw [gather_foldl_getElem tasks order (List.replicate tasks.length none) j,
    List.length_replicate]
  by_cases hj : j < tasks.length
  · have hmem : j ∈ order := h.mem_iff.mpr (List.mem_range.mpr hj)
    simp [hmem, hj, List.getElem?_eq_getElem hj]
  · have hc : ¬ (j ∈ order ∧ j < tasks.length) := fun hc => hj hc.2
    have h1 : (List.replicate tasks.length (none : Option DataItem)).length ≤ j := by
      rw [List.length_replicate]; omega
    have h2 : (tasks.map some).length ≤ j := by rw [List.length_map]; omega
    simp [hc, List.getElem?_eq_none h1, List.getElem?_eq_none h2]

/-- Under a complete completion order, `run_pipelineR` is the per-item results
in input order. -/
lemma run_pipelineR_eq (fail_rate : ℚ) (item_ids : List Int) (draws : Int → Nat → ℚ)
    (order : List Nat) (h : order.Perm (List.range item_ids.length)) :
    run_pipelineR fail_rate item_ids draws order =
      (item_ids.map (fun item_id => (process_itemR item_id fail_rate (draws item_id) 3).1)).map
        some := by
  unfold run_pipelineR
  apply gather_perm
  simpa [List.length_map] using h

/-- Under a complete completion order, `run_pipeline` is the per-item results
in input order. -/
lemma run_pipeline_eq (item_ids : List Int) (draws : Int → Nat → ℚ)
    (order : List Nat) (h : order.Perm (List.range item_ids.length)) :
    run_pipeline item_ids draws order =
      (item_ids.map (fun item_id => (process_item item_id (draws item_id)).1)).map some := by
  unfold run_pipeline
  apply gather_perm
  simpa [List.length_map] using h

/-- The fetch error message is never the empty string. -/
lemma fetch_error_msg_ne_empty (item_id : Int) :
    "Failed to fetch item " ++ toString item_id ≠ "" := by
  intro hmsg
  have hlen := congrArg String.length hmsg
  rw [String.length_append] at hlen
  have h21 : ("Failed to fetch item " : String).length = 21 := rfl
  have h0 : ("" : String).length = 0 := rfl
  rw [h21, h0] at hlen
  omega

/-- Status literals are pairwise distinct. -/
lemma pending_ne_completed : ("pending" : String) ≠ "completed" := by decide

/-- Status literals are pairwise distinct. -/
lemma pending_ne_failed : ("pending" : String) ≠ "failed" := by decide

/-- Status literals are pairwise distinct. -/
lemma completed_ne_failed : ("completed" : String) ≠ "failed" := by decide

/-- At fail rate 0, a draw of `random.random()` (which is nonnegative) never
fails, so the item completes. -/
lemma process_itemR_status_rate_zero (item_id : Int) (draws : Nat → ℚ) (N : Nat)
    (hN : 1 ≤ N) (h : 0 ≤ draws 0) :
    (process_itemR item_id 0 draws N).1.status = "completed" := by
  obtain ⟨r, rfl⟩ : ∃ r, N = r + 1 := ⟨N - 1, by omega⟩
  have hs := process_itemGo_succ item_id 0 draws (r + 1) 0 r (init_item item_id)
    (not_lt.mpr h)
  simp [process_itemR, hs, completed_item]

/-- At fail rate 1, draws of `random.random()` (which are below 1) always
fail, so the item ends failed. -/
lemma process_itemR_status_rate_one (item_id : Int) (draws : Nat → ℚ) (N : Nat)
    (hN : 1 ≤ N) (h : ∀ j, draws j < 1) :
    (process_itemR item_id 1 draws N).1.status = "failed" := by
  have hfail := process_itemGo_fail item_id 1 draws N h N 0 (init_item item_id)
    (by omega) hN
  simp [process_itemR, hfail, failed_item]

/-! The claim theorems. -/

/-- C1: For every input list of item ids, `run_pipeline` returns a list of
the same length whose items carry the same ids in the same order as the input
id sequence, regardless of the (simulated) completion order of the concurrent
per-item tasks (any permutation of the task indices). -/
theorem C1_output_preserves_input_id_order (item_ids : List Int)
    (draws : Int → Nat → ℚ) (order : List Nat)
    (h : order.Perm (List.range item_ids.length)) :
    (run_pipeline item_ids draws order).length = item_ids.length ∧
    (run_pipeline item_ids draws order).map (Option.map DataItem.id) =
      item_ids.map (fun item_id => some item_id) := by
  rw [run_pipeline_eq item_ids draws order h]
  constructor
  · simp
  · simp [List.map_map, Function.comp, process_item, process_itemR_id]

/-- C1 witness: a two-item batch whose second task finishes first still
returns ids in input order. -/
theorem C1_output_preserves_input_id_order_witness :
    (run_pipeline [10, 20] (fun _ _ => 1) [1, 0]).length = ([10, 20] : List Int).length ∧
    (run_pipeline [10, 20] (fun _ _ => 1) [1, 0]).map (Option.map DataItem.id) =
      ([10, 20] : List Int).map (fun item_id => some item_id) :=
  C1_output_preserves_input_id_order [10, 20] (fun _ _ => 1) [1, 0] (by decide)

/-- C2: `process_item` never propagates an exception to its caller: the
exception channel always carries `Except.ok` for every id, fail rate, draw
stream and retry budget; with `max_retries ≥ 1` a failure on the final
attempt is converted to data on the returned item (terminal status, error
recorded); and `run_pipeline`'s fan-out always returns a complete result
list. -/
theorem C2_no_exception_escapes :
    (∀ (item_id : Int) (fail_rate : ℚ) (draws : Nat → ℚ) (max_retries : Nat),
      process_itemE item_id fail_rate draws max_retries =
        Except.ok (process_itemR item_id fail_rate draws max_retries)) ∧
    (∀ (item_id : Int) (fail_rate : ℚ) (draws : Nat → ℚ) (max_retries : Nat),
      1 ≤ max_retries →
      (process_itemR item_id fail_rate draws max_retries).1.status = "completed" ∨
      ((process_itemR item_id fail_rate draws max_retries).1.status = "failed" ∧
       (process_itemR item_id fail_rate draws max_retries).1.error.isSome)) ∧
    (∀ (item_ids : List Int) (draws : Int → Nat → ℚ) (order : List Nat),
      order.Perm (List.range item_ids.length) →
      (run_pipeline item_ids draws order).length = item_ids.length) := by
  refine ⟨?_, ?_, ?_⟩
  · intro item_id fail_rate draws max_retries
    have := process_itemGoE_ok item_id fail_rate draws max_retries max_retries 0
      (init_item item_id)
    simpa [process_itemE, process_itemR] using this
  · intro item_id fail_rate draws max_retries hn
    have := process_itemGo_terminal item_id fail_rate draws max_retries max_retries 0
      (init_item item_id) (by omega) hn
    simpa [process_itemR] using this
  · intro item_ids draws order h
    rw [run_pipeline_eq item_ids draws order h]
    simp

/-- C2 witness: an always-failing single-attempt-budget run still returns
`Except.ok`, a terminal item, and a complete batch. -/
theorem C2_no_exception_escapes_witness :
    process_itemE 7 1 (fun _ => 0) 2 = Except.ok (process_itemR 7 1 (fun _ => 0) 2) ∧
    ((process_itemR 7 1 (fun _ => 0) 2).1.status = "completed" ∨
     ((process_itemR 7 1 (fun _ => 0) 2).1.status = "failed" ∧
      (process_itemR 7 1 (fun _ => 0) 2).1.error.isSome)) ∧
    (run_pipeline [7] (fun _ _ => 0) [0]).length = ([7] : List Int).length :=
  ⟨C2_no_exception_escapes.1 7 1 (fun _ => 0) 2,
   C2_no_exception_escapes.2.1 7 1 (fun _ => 0) 2 (by norm_num),
   C2_no_exception_escapes.2.2 [7] (fun _ _ => 0) [0] (by decide)⟩

/-- C3: at per-stage failure rate 1 (every draw of `random.random()` lies
below 1, hence every fetch fails) and `max_retries = N ≥ 1`, the item ends
`status = "failed"`, exactly `N` stage-pass attempts are made, and the
recorded error is non-null and non-empty. -/
theorem C3_always_fail_exhausts_retries (item_id : Int) (draws : Nat → ℚ) (N : Nat)
    (hN : 1 ≤ N) (hdraws : ∀ j, draws j < 1) :
    (process_itemR item_id 1 draws N).1.status = "failed" ∧
    (process_itemR item_id 1 draws N).2.attempts = N ∧
    ∃ msg, (process_itemR item_id 1 draws N).1.error = some msg ∧ msg ≠ "" := by
  have hfail := process_itemGo_fail item_id 1 draws N hdraws N 0 (init_item item_id)
    (by omega) hN
  refine ⟨?_, ?_, "Failed to fetch item " ++ toString item_id, ?_,
    fetch_error_msg_ne_empty item_id⟩
  · simp [process_itemR, hfail, failed_item]
  · simp [process_itemR, hfail]
  · simp [process_itemR, hfail, failed_item]

/-- C3 witness: fail rate 1, `max_retries = 3`, all draws 0. -/
theorem C3_always_fail_exhausts_retries_witness :
    (process_itemR 9 1 (fun _ => 0) 3).1.status = "failed" ∧
    (process_itemR 9 1 (fun _ => 0) 3).2.attempts = 3 ∧
    ∃ msg, (process_itemR 9 1 (fun _ => 0) 3).1.error = some msg ∧ msg ≠ "" :=
  C3_always_fail_exhausts_retries 9 (fun _ => 0) 3 (by norm_num) (fun j => by norm_num)

/-- C4: at per-stage failure rate 0 (no draw of `random.random()`, being
nonnegative, is below 0, so no stage invocation ever fails), the item
completes with exactly one attempt, running fetch, process and save exactly
once each. -/
theorem C4_no_fail_completes_first_attempt (item_id : Int) (draws : Nat → ℚ) (N : Nat)
    (hN : 1 ≤ N) (hdraws : ∀ j, 0 ≤ draws j) :
    (process_itemR item_id 0 draws N).1.status = "completed" ∧
    (process_itemR item_id 0 draws N).2.attempts = 1 ∧
    (process_itemR item_id 0 draws N).2.fetches = 1 ∧
    (process_itemR item_id 0 draws N).2.processes = 1 ∧
    (process_itemR item_id 0 draws N).2.saves = 1 := by
  obtain ⟨r, rfl⟩ : ∃ r, N = r + 1 := ⟨N - 1, by omega⟩
  have hs := process_itemGo_succ item_id 0 draws (r + 1) 0 r (init_item item_id)
    (not_lt.mpr (hdraws 0))
  simp [process_itemR, hs, completed_item]

/-- C4 witness: fail rate 0, `max_retries = 3`, all draws one half. -/
theorem C4_no_fail_completes_first_attempt_witness :
    (process_itemR 4 0 (fun _ => 1/2) 3).1.status = "completed" ∧
    (process_itemR 4 0 (fun _ => 1/2) 3).2.attempts = 1 ∧
    (process_itemR 4 0 (fun _ => 1/2) 3).2.fetches = 1 ∧
    (process_itemR 4 0 (fun _ => 1/2) 3).2.processes = 1 ∧
    (process_itemR 4 0 (fun _ => 1/2) 3).2.saves = 1 :=
  C4_no_fail_completes_first_attempt 4 (fun _ => 1/2) 3 (by norm_num)
    (fun j => by norm_num)

/-- C5: a failing non-final zero-indexed attempt `k` adds a backoff wait of
exactly `2 ^ k` time units before the next attempt; a failing final attempt
adds no wait; and an always-failing item with `max_retries = 3` accumulates a
total backoff wait of `2 ^ 0 + 2 ^ 1 = 3` time units. -/
theorem C5_exponential_backoff :
    (∀ (item_id : Int) (fail_rate : ℚ) (draws : Nat → ℚ) (max_retries k r : Nat)
       (item : DataItem), draws k < fail_rate → k ≠ max_retries - 1 →
       (process_itemGo item_id fail_rate draws max_retries k item (r + 1)).2.waitTotal =
         2 ^ k + (process_itemGo item_id fail_rate draws max_retries (k + 1) item r).2.waitTotal) ∧
    (∀ (item_id : Int) (fail_rate : ℚ) (draws : Nat → ℚ) (max_retries k r : Nat)
       (item : DataItem), draws k < fail_rate → k = max_retries - 1 →
       (process_itemGo item_id fail_rate draws max_retries k item (r + 1)).2.waitTotal = 0) ∧
    (∀ (item_id : Int) (draws : Nat → ℚ), (∀ j, draws j < 1) →
       (process_itemR item_id 1 draws 3).2.waitTotal = 3) := by
  refine ⟨?_, ?_, ?_⟩
  · intro item_id fail_rate draws max_retries k r item hk hne
    simp only [process_itemGo,
      process_item_try_err item_id fail_rate (draws k) item hk, if_neg hne]
    omega
  · intro item_id fail_rate draws max_retries k r item hk heq
    simp only [process_itemGo,
      process_item_try_err item_id fail_rate (draws k) item hk, if_pos heq]
  · intro item_id draws hd
    have hfail := process_itemGo_fail item_id 1 draws 3 hd 3 0 (init_item item_id)
      (by omega) (by omega)
    simp [process_itemR, hfail]

/-- C5 witness: with all draws failing, attempt 0 of 3 waits `2 ^ 0`, the
final attempt waits nothing, and the three-attempt total is 3. -/
theorem C5_exponential_backoff_witness :
    (process_itemGo 5 1 (fun _ => 0) 3 0 (init_item 5) 2).2.waitTotal =
      2 ^ 0 + (process_itemGo 5 1 (fun _ => 0) 3 1 (init_item 5) 1).2.waitTotal ∧
    (process_itemGo 5 1 (fun _ => 0) 3 2 (init_item 5) 1).2.waitTotal = 0 ∧
    (process_itemR 5 1 (fun _ => 0) 3).2.waitTotal = 3 :=
  ⟨C5_exponential_backoff.1 5 1 (fun _ => 0) 3 0 1 (init_item 5) (by norm_num) (by decide),
   C5_exponential_backoff.2.1 5 1 (fun _ => 0) 3 2 0 (init_item 5) (by norm_num) (by decide),
   C5_exponential_backoff.2.2 5 (fun _ => 0) (fun j => by norm_num)⟩

/-- C6 counterexample: calling the retry controller with `max_retries = 0` is
not rejected with a `ConfigError`: `process_item` returns normally (the
exception channel carries `Except.ok`) and an item object IS returned, still
in status `"pending"` — no error of any kind is surfaced. -/
theorem C6_counterexample :
    process_itemE 1 process_item_fail_rate (fun _ => 0) 0 =
      Except.ok (init_item 1,
        { attempts := 0, waitTotal := 0, fetches := 0, processes := 0, saves := 0 }) ∧
    (init_item 1).status = "pending" ∧ (init_item 1).error = none :=
  ⟨rfl, rfl, rfl⟩

/-- C6 amended: there is no construction-time validation of `max_retries`:
with `max_retries = 0` the retry loop body never runs, nothing is raised, and
`process_item` returns the untouched item in status `"pending"` with no
error, no attempts and no stage invocations. -/
theorem C6_amended_zero_retries_returns_pending (item_id : Int) (fail_rate : ℚ)
    (draws : Nat → ℚ) :
    process_itemE item_id fail_rate draws 0 =
      Except.ok (init_item item_id,
        { attempts := 0, waitTotal := 0, fetches := 0, processes := 0, saves := 0 }) ∧
    (init_item item_id).status = "pending" ∧ (init_item item_id).error = none :=
  ⟨rfl, rfl, rfl⟩

/-- C7: for every item returned by `process_item` (any fail rate, any draw
stream, any retry budget), `status = "completed"` implies `processed_data` is
non-null and `error` is null. -/
theorem C7_completed_implies_payload_no_error (item_id : Int) (fail_rate : ℚ)
    (draws : Nat → ℚ) (max_retries : Nat)
    (h : (process_itemR item_id fail_rate draws max_retries).1.status = "completed") :
    (process_itemR item_id fail_rate draws max_retries).1.processed_data.isSome ∧
    (process_itemR item_id fail_rate draws max_retries).1.error = none := by
  have := process_itemGo_completed_inv item_id fail_rate draws max_retries max_retries 0
    (init_item item_id) rfl pending_ne_completed (by simpa [process_itemR] using h)
  simpa [process_itemR] using this

/-- C7 witness: a run that completes has a processed payload and no error. -/
theorem C7_completed_implies_payload_no_error_witness :
    (process_itemR 2 0 (fun _ => 0) 3).1.status = "completed" ∧
    ((process_itemR 2 0 (fun _ => 0) 3).1.processed_data.isSome ∧
     (process_itemR 2 0 (fun _ => 0) 3).1.error = none) :=
  ⟨by decide, C7_completed_implies_payload_no_error 2 0 (fun _ => 0) 3 (by decide)⟩

/-- C8: with deterministic stage behavior (fail rate 0 or 1, draws anywhere
in `random.random()`'s range `[0, 1)`), two runs of the pipeline on the same
input id list — even with different random draws and different completion
orders — produce identical terminal statuses for every item. -/
theorem C8_two_runs_same_statuses (fail_rate : ℚ) (item_ids : List Int)
    (d1 d2 : Int → Nat → ℚ) (o1 o2 : List Nat)
    (hrate : fail_rate = 0 ∨ fail_rate = 1)
    (hd1 : ∀ i k, 0 ≤ d1 i k ∧ d1 i k < 1)
    (hd2 : ∀ i k, 0 ≤ d2 i k ∧ d2 i k < 1)
    (h1 : o1.Perm (List.range item_ids.length))
    (h2 : o2.Perm (List.range item_ids.length)) :
    (run_pipelineR fail_rate item_ids d1 o1).map (Option.map DataItem.status) =
      (run_pipelineR fail_rate item_ids d2 o2).map (Option.map DataItem.status) := by
  rw [run_pipelineR_eq fail_rate item_ids d1 o1 h1,
    run_pipelineR_eq fail_rate item_ids d2 o2 h2]
  simp only [List.map_map, Function.comp_def, Option.map_some']
  rcases hrate with rfl | rfl
  · have key : ∀ (d : Int → Nat → ℚ), (∀ i k, 0 ≤ d i k ∧ d i k < 1) →
        item_ids.map (fun j => some (process_itemR j 0 (d j) 3).1.status) =
          item_ids.map (fun _ => some "completed") := by
      intro d hd
      refine List.map_congr_left (fun a _ => ?_)
      rw [process_itemR_status_rate_zero a (d a) 3 (by omega) (hd a 0).1]
    rw [key d1 hd1, key d2 hd2]
  · have key : ∀ (d : Int → Nat → ℚ), (∀ i k, 0 ≤ d i k ∧ d i k < 1) →
        item_ids.map (fun j => some (process_itemR j 1 (d j) 3).1.status) =
          item_ids.map (fun _ => some "failed") := by
      intro d hd
      refine List.map_congr_left (fun a _ => ?_)
      rw [process_itemR_status_rate_one a (d a) 3 (by omega) (fun k => (hd a k).2)]
    rw [key d1 hd1, key d2 hd2]

/-- C8 witness: fail rate 0, two different draw streams and completion
orders, identical status lists. -/
theorem C8_two_runs_same_statuses_witness :
    (run_pipelineR 0 [1, 2] (fun _ _ => 0) [0, 1]).map (Option.map DataItem.status) =
      (run_pipelineR 0 [1, 2] (fun _ _ => 1/2) [1, 0]).map (Option.map DataItem.status) :=
  C8_two_runs_same_statuses 0 [1, 2] (fun _ _ => 0) (fun _ _ => 1/2) [0, 1] [1, 0]
    (Or.inl rfl) (fun i k => by norm_num) (fun i k => by norm_num)
    (by decide) (by decide)

/-- C9 counterexample: the caller-supplied per-stage fail rate is NOT applied
to the pipeline's stage invocations: `process_item` hardcodes `fail_rate=0.2`
at its `fetch_data` call, so a run whose draw is `0.1` fails even though at a
caller-supplied rate of `0` the very same draws complete the item. -/
theorem C9_counterexample :
    (process_item 1 (fun _ => 1/10) 1).1.status = "failed" ∧
    (process_itemR 1 0 (fun _ => 1/10) 1).1.status = "completed" := by
  constructor
  · have hd : (1 : ℚ) / 10 < 2 / 10 := by norm_num
    have ht := process_item_try_err 1 (2 / 10) ((1 : ℚ) / 10) (init_item 1) hd
    simp only [process_item, process_itemR, process_item_fail_rate, process_itemGo, ht]
    simp
  · have h0 : ¬ (1 : ℚ) / 10 < 0 := by norm_num
    have hs : process_itemGo 1 0 (fun _ => (1 : ℚ) / 10) 1 0 (init_item 1) 1 =
        (completed_item (init_item 1) 1,
         { attempts := 1, waitTotal := 0, fetches := 1, processes := 1, saves := 1 }) :=
      process_itemGo_succ 1 0 (fun _ => (1 : ℚ) / 10) 1 0 0 (init_item 1) h0
    rw [process_itemR, hs]
    rfl

/-- C9 amended: only `fetch_data` exposes an injectable failure probability,
and it is honored there (a call fails exactly when its draw is below the
supplied rate); but `process_item` invokes `fetch_data` with the hardcoded
rate `0.2` — so a single-attempt item fails exactly when its draw is below
`0.2`, and no caller-supplied `per_stage_fail_rate` or `stage_latency`
configuration reaches the stages (`process_data` and `save_data` take
neither, and the stage latencies are the fixed constants 0.5, 0.3, 0.2). -/
theorem C9_amended_only_fetch_configurable :
    (∀ (item_id : Int) (fail_rate draw : ℚ),
      fetch_data item_id fail_rate draw =
          Except.error ("Failed to fetch item " ++ toString item_id) ↔
        draw < fail_rate) ∧
    (∀ (item_id : Int) (draws : Nat → ℚ) (max_retries : Nat),
      process_item item_id draws max_retries =
        process_itemR item_id (2 / 10) draws max_retries) ∧
    (∀ (item_id : Int) (draws : Nat → ℚ),
      (process_item item_id draws 1).1.status = "failed" ↔ draws 0 < 2 / 10) ∧
    fetch_latency = 5 / 10 ∧ process_latency = 3 / 10 ∧ save_latency = 2 / 10 := by
  refine ⟨?_, ?_, ?_, rfl, rfl, rfl⟩
  · intro item_id fail_rate draw
    constructor
    · intro h
      by_cases hd : draw < fail_rate
      · exact hd
      · rw [fetch_data, if_neg hd] at h
        exact absurd h (by simp)
    · intro hd
      rw [fetch_data, if_pos hd]
  · intro item_id draws max_retries
    rfl
  · intro item_id draws
    constructor
    · intro h
      by_cases hd : draws 0 < 2 / 10
      · exact hd
      · have hs := process_itemGo_succ item_id (2 / 10) draws 1 0 0 (init_item item_id) hd
        rw [process_item, process_itemR, process_item_fail_rate] at h
        rw [hs] at h
        exact absurd h completed_ne_failed
    · intro hd
      have ht := process_item_try_err item_id (2 / 10) (draws 0) (init_item item_id) hd
      simp [process_item, process_itemR, process_item_fail_rate, process_itemGo, ht]

/-- C10: only the fetch stage can fail — one pass of the stage sequence
raises exactly when its fetch draw is below the fail rate, never in process
or save — so a failed item has both payloads null and a non-null error. -/
theorem C10_failed_item_has_no_payload :
    (∀ (item_id : Int) (fail_rate draw : ℚ) (item : DataItem),
      (process_item_try item_id fail_rate draw item).isOk ↔ ¬ draw < fail_rate) ∧
    (∀ (item_id : Int) (fail_rate : ℚ) (draws : Nat → ℚ) (max_retries : Nat),
      (process_itemR item_id fail_rate draws max_retries).1.status = "failed" →
      (process_itemR item_id fail_rate draws max_retries).1.raw_data = none ∧
      (process_itemR item_id fail_rate draws max_retries).1.processed_data = none ∧
      (process_itemR item_id fail_rate draws max_retries).1.error.isSome) := by
  constructor
  · intro item_id fail_rate draw item
    by_cases hd : draw < fail_rate
    · rw [process_item_try_err item_id fail_rate draw item hd]
      simp [hd, Except.isOk, Except.toBool]
    · rw [process_item_try_ok item_id fail_rate draw item hd]
      simp [hd, Except.isOk, Except.toBool]
  · intro item_id fail_rate draws max_retries h
    have := process_itemGo_failed_inv item_id fail_rate draws max_retries max_retries 0
      (init_item item_id) rfl rfl pending_ne_failed (by simpa [process_itemR] using h)
    simpa [process_itemR] using this

/-- C10 witness: an always-failing run ends failed with empty payloads and a
recorded error; and a non-failing single pass is `Except.ok`. -/
theorem C10_failed_item_has_no_payload_witness :
    ((process_item_try 3 1 2 (init_item 3)).isOk ↔ ¬ (2 : ℚ) < 1) ∧
    ((process_itemR 3 1 (fun _ => 0) 2).1.status = "failed" ∧
     ((process_itemR 3 1 (fun _ => 0) 2).1.raw_data = none ∧
      (process_itemR 3 1 (fun _ => 0) 2).1.processed_data = none ∧
      (process_itemR 3 1 (fun _ => 0) 2).1.error.isSome)) :=
  ⟨C10_failed_item_has_no_payload.1 3 1 2 (init_item 3),
   by decide,
   C10_failed_item_has_no_payload.2 3 1 (fun _ => 0) 2 (by decide)⟩

end Pipeline
